import Mathlib

/-!
A Lean model of the AI Debates Arena program
(`src/programs/ai-debates/src/lib.rs`), covering the financial core:
platform setup, the debate lifecycle state machine, round aggregation,
settlement, and the betting pool with claims.

Machine integers are modeled as `Nat` with an explicit reduction modulo
the word size at every point where the Rust source performs unchecked
arithmetic: under the release-profile semantics of the language, an
unchecked `+=`, `-=` or `*` on a fixed-width unsigned integer wraps
modulo 2^w, and a narrowing cast `as u64` of a `u128` value reduces
modulo 2^64.  Fallible instructions return `Except Err`; returning
`Except.error` models the transactional abort of the host runtime, in
which no account mutation persists (so an error implies no state
change).  Account public keys are modeled as `Nat`; `Clock` timestamps
are passed in as an explicit `now : Int` argument.  Anchor account
constraints (the `has_one` checks of the instruction account structs)
are modeled as explicit guards executed before each handler body, which
is where the host validates them.  The `bump` metadata fields are
omitted: no handler reads them.
-/

namespace AiDebates

/-- The u64 modulus 2^64. -/
def U64_MOD : Nat := 18446744073709551616

/-- The u32 modulus 2^32. -/
def U32_MOD : Nat := 4294967296

/-- The u8 modulus 2^8. -/
def U8_MOD : Nat := 256

/-- Wrapping u64 addition: unchecked `+=` on a u64 under release semantics. -/
def wrapAdd64 (a b : Nat) : Nat := (a + b) % U64_MOD

/-- Wrapping u64 subtraction: unchecked `-=` on a u64 under release
semantics; for `a b < 2^64` this is two-complement wraparound. -/
def wrapSub64 (a b : Nat) : Nat := (a + U64_MOD - b) % U64_MOD

/-- Wrapping u32 addition: unchecked `+=` on a u32 under release semantics. -/
def wrapAdd32 (a b : Nat) : Nat := (a + b) % U32_MOD

/-- Wrapping u8 addition: unchecked `+=` on a u8 under release semantics. -/
def wrapAdd8 (a b : Nat) : Nat := (a + b) % U8_MOD

/-- `DebateStatus` (lib.rs 457-463). -/
inductive DebateStatus where
  | Pending
  | InProgress
  | Completed
  | Cancelled
  deriving DecidableEq, Repr

/-- `DebatePosition` (lib.rs 465-469). -/
inductive DebatePosition where
  | Pro
  | Con
  deriving DecidableEq, Repr

/-- `ErrorCode` (lib.rs 753-796). -/
inductive ErrorCode where
  | FeeTooHigh
  | UsernameTooLong
  | BotNameTooLong
  | InvalidTopicLength
  | CategoryTooLong
  | AlreadyVoted
  | InvalidStake
  | InvalidDebateStatus
  | InvalidRound
  | DebateNotCompleted
  | NoWinner
  | InvalidBetAmount
  | BettingClosed
  | BetAlreadySettled
  deriving DecidableEq, Repr

/-- Errors an instruction can surface: a program `ErrorCode`, an Anchor
account-constraint violation (a failed `has_one` check), or a failed
system-program transfer. -/
inductive Err where
  | code (e : ErrorCode)
  | constraintHasOne
  | insufficientFunds
  deriving DecidableEq, Repr

/-- `Platform` account (lib.rs 364-373), without the `bump` metadata. -/
structure Platform where
  authority : Nat
  treasury : Nat
  platform_fee_bps : Nat  -- u16
  total_debates : Nat     -- u64
  total_users : Nat       -- u64
  total_volume : Nat      -- u64
  deriving DecidableEq, Repr

/-- `Debate` account (lib.rs 423-439), without the `bump` metadata. -/
structure Debate where
  topic : String
  pro_bot : Nat
  con_bot : Nat
  status : DebateStatus
  stake_amount : Nat      -- u64
  total_pro_votes : Nat   -- u32
  total_con_votes : Nat   -- u32
  pro_rounds_won : Nat    -- u8
  con_rounds_won : Nat    -- u8
  winner : Option DebatePosition
  created_at : Int
  started_at : Option Int
  completed_at : Option Int
  deriving DecidableEq, Repr

/-- `Bet` account (lib.rs 441-451), without the `bump` metadata. -/
structure Bet where
  debate : Nat
  bettor : Nat
  side : DebatePosition
  amount : Nat    -- u64
  settled : Bool
  payout : Nat    -- u64
  created_at : Int
  deriving DecidableEq, Repr

/-- Modelled from the spec: the system-program value-transfer primitive
(`anchor_lang::system_program::transfer`, external to this repository).
The spec interface is `transfer(from, to, amount) -> success |
insufficient_funds`: it debits the payer and credits the payee
atomically, failing exactly when the payer balance is below the
amount. -/
def transfer (fromBal toBal amount : Nat) : Except Err (Nat × Nat) :=
  if amount ≤ fromBal then Except.ok (fromBal - amount, toBal + amount)
  else Except.error Err.insufficientFunds

/-- The source `initialize` instruction (lib.rs 15-29), renamed here:
checks `platform_fee_bps <= 1000` and builds the platform record with
all counters zero. -/
def init_platform (authority treasury platform_fee_bps : Nat) :
    Except Err Platform :=
  if platform_fee_bps ≤ 1000 then
    Except.ok
      { authority := authority
        treasury := treasury
        platform_fee_bps := platform_fee_bps
        total_debates := 0
        total_users := 0
        total_volume := 0 }
  else Except.error (Err.code ErrorCode.FeeTooHigh)

/-- `let total_pool = debate.stake_amount * 2` (lib.rs 235): an
unchecked u64 multiply, which wraps modulo 2^64. -/
def total_pool (stake_amount : Nat) : Nat := stake_amount * 2 % U64_MOD

/-- `let platform_fee = (total_pool as u128 * platform.platform_fee_bps
as u128 / 10000) as u64` (lib.rs 236): exact u128 arithmetic followed by
the narrowing cast to u64. -/
def platform_fee (pool fee_bps : Nat) : Nat := pool * fee_bps / 10000 % U64_MOD

/-- `let winner_payout = total_pool - platform_fee` (lib.rs 237): an
unchecked u64 subtraction. -/
def winner_payout (pool fee : Nat) : Nat := wrapSub64 pool fee

/-- `let payout = (bet.amount as u128 * 2 * (10000 -
platform.platform_fee_bps as u128) / 10000) as u64` (lib.rs 312): exact
u128 arithmetic followed by the narrowing cast to u64. -/
def claim_payout (amount fee_bps : Nat) : Nat :=
  amount * 2 * (10000 - fee_bps) / 10000 % U64_MOD

/-- `create_debate` (lib.rs 123-180): requires `stake_amount > 0`,
builds the Pending debate record (winner and the start/completion
timestamps absent, all tallies zero), then transfers one stake from each
owner into escrow; either transfer failing aborts the whole instruction.
Finally bumps `platform.total_debates` (unchecked u64 `+=`).  Returns
the debate, the updated platform, and the updated pro-owner, con-owner
and escrow balances. -/
def create_debate (topic : String) (proBot conBot : Nat) (stake_amount : Nat)
    (now : Int) (platform : Platform) (proOwnerBal conOwnerBal escrowBal : Nat) :
    Except Err (Debate × Platform × Nat × Nat × Nat) :=
  if 0 < stake_amount then
    let d : Debate :=
      { topic := topic
        pro_bot := proBot
        con_bot := conBot
        status := DebateStatus.Pending
        stake_amount := stake_amount
        total_pro_votes := 0
        total_con_votes := 0
        pro_rounds_won := 0
        con_rounds_won := 0
        winner := none
        created_at := now
        started_at := none
        completed_at := none }
    match transfer proOwnerBal escrowBal stake_amount with
    | Except.error e => Except.error e
    | Except.ok (proBal1, escrowBal1) =>
      match transfer conOwnerBal escrowBal1 stake_amount with
      | Except.error e => Except.error e
      | Except.ok (conBal1, escrowBal2) =>
        Except.ok (d, { platform with
            total_debates := wrapAdd64 platform.total_debates 1 },
          proBal1, conBal1, escrowBal2)
  else Except.error (Err.code ErrorCode.InvalidStake)

/-- `start_debate` (lib.rs 183-192) together with its `StartDebate`
accounts struct (lib.rs 612-626): the struct carries `has_one =
authority` on the platform, so a caller other than
`platform.authority` fails account validation; the handler then
requires status Pending and stamps `started_at`. -/
def start_debate (caller : Nat) (platform : Platform) (d : Debate) (now : Int) :
    Except Err Debate :=
  if caller = platform.authority then
    if d.status = DebateStatus.Pending then
      Except.ok { d with status := DebateStatus.InProgress, started_at := some now }
    else Except.error (Err.code ErrorCode.InvalidDebateStatus)
  else Except.error Err.constraintHasOne

/-- `submit_round_result` (lib.rs 195-218) together with its
`SubmitRoundResult` accounts struct (lib.rs 628-641, `has_one =
authority`): requires `1 <= round <= 3` and status InProgress, then
accumulates the vote tallies with unchecked u32 `+=` and bumps the
strict-majority side round counter with unchecked u8 `+=` (no increment
on a tie). -/
def submit_round_result (caller : Nat) (platform : Platform) (d : Debate)
    (round pro_votes con_votes : Nat) : Except Err Debate :=
  if caller = platform.authority then
    if 1 ≤ round ∧ round ≤ 3 then
      if d.status = DebateStatus.InProgress then
        Except.ok { d with
          total_pro_votes := wrapAdd32 d.total_pro_votes pro_votes
          total_con_votes := wrapAdd32 d.total_con_votes con_votes
          pro_rounds_won :=
            if con_votes < pro_votes then wrapAdd8 d.pro_rounds_won 1
            else d.pro_rounds_won
          con_rounds_won :=
            if pro_votes < con_votes then wrapAdd8 d.con_rounds_won 1
            else d.con_rounds_won }
      else Except.error (Err.code ErrorCode.InvalidDebateStatus)
    else Except.error (Err.code ErrorCode.InvalidRound)
  else Except.error Err.constraintHasOne

/-- `settle_debate` (lib.rs 221-257) together with its `SettleDebate`
accounts struct (lib.rs 643-664).  Note that unlike `StartDebate` and
`SubmitRoundResult`, the `SettleDebate` struct declares `authority :
Signer` but carries NO `has_one = authority` constraint on the
platform, so the caller identity is never compared with
`platform.authority`: the `caller` argument below is deliberately
unused, mirroring the source.  The handler requires status InProgress,
marks the debate Completed with the supplied winner and timestamp, then
debits the escrow lamports by `winner_payout` and by `platform_fee`
with unchecked u64 `-=` (no balance check), crediting the winner
account and the treasury.  Returns the updated debate and the updated
escrow, winner-account and treasury balances. -/
def settle_debate (caller : Nat) (platform : Platform) (d : Debate)
    (escrowBal winnerBal treasuryBal : Nat) (winner : DebatePosition)
    (now : Int) : Except Err (Debate × Nat × Nat × Nat) :=
  if d.status = DebateStatus.InProgress then
    let d1 : Debate := { d with
      status := DebateStatus.Completed
      winner := some winner
      completed_at := some now }
    let pool := total_pool d.stake_amount
    let fee := platform_fee pool platform.platform_fee_bps
    let payout := winner_payout pool fee
    Except.ok (d1,
      wrapSub64 (wrapSub64 escrowBal payout) fee,
      wrapAdd64 winnerBal payout,
      wrapAdd64 treasuryBal fee)
  else Except.error (Err.code ErrorCode.InvalidDebateStatus)

/-- `place_bet` (lib.rs 260-294): requires `amount > 0` first, then
status Pending, then records the unsettled bet with zero payout and
transfers the amount from the bettor into escrow (aborting on transfer
failure), finally bumping the bettor user `total_wagered` with
unchecked u64 `+=`.  Returns the bet and the updated escrow and bettor
balances and the bettor `total_wagered`. -/
def place_bet (d : Debate) (debateKey bettor : Nat) (side : DebatePosition)
    (amount escrowBal bettorBal totalWagered : Nat) (now : Int) :
    Except Err (Bet × Nat × Nat × Nat) :=
  if 0 < amount then
    if d.status = DebateStatus.Pending then
      let bet : Bet :=
        { debate := debateKey
          bettor := bettor
          side := side
          amount := amount
          settled := false
          payout := 0
          created_at := now }
      match transfer bettorBal escrowBal amount with
      | Except.error e => Except.error e
      | Except.ok (bettorBal1, escrowBal1) =>
        Except.ok (bet, escrowBal1, bettorBal1, wrapAdd64 totalWagered amount)
    else Except.error (Err.code ErrorCode.BettingClosed)
  else Except.error (Err.code ErrorCode.InvalidBetAmount)

/-- `claim_bet` (lib.rs 297-330) together with its `ClaimBet` accounts
struct (lib.rs 698-725, `has_one = bettor` on the bet): requires the
caller to be the recorded bettor, the debate Completed, the bet not yet
settled, and a recorded winner; flips `settled` to true.  If the bet
side matches the winner it sets `payout` to the computed claim payout,
debits the escrow lamports by it with an unchecked u64 `-=` (no balance
check), credits the bettor and bumps the user `total_won` (unchecked
u64 `+=`); a losing bet keeps payout 0 and moves no funds.  Returns the
updated bet, escrow and bettor balances and the bettor `total_won`. -/
def claim_bet (caller : Nat) (platform : Platform) (d : Debate) (bet : Bet)
    (escrowBal bettorBal totalWon : Nat) : Except Err (Bet × Nat × Nat × Nat) :=
  if caller = bet.bettor then
    if d.status = DebateStatus.Completed then
      if bet.settled then Except.error (Err.code ErrorCode.BetAlreadySettled)
      else
        match d.winner with
        | none => Except.error (Err.code ErrorCode.NoWinner)
        | some w =>
          if bet.side = w then
            let payout := claim_payout bet.amount platform.platform_fee_bps
            Except.ok ({ bet with settled := true, payout := payout },
              wrapSub64 escrowBal payout,
              wrapAdd64 bettorBal payout,
              wrapAdd64 totalWon payout)
          else
            Except.ok ({ bet with settled := true }, escrowBal, bettorBal, totalWon)
    else Except.error (Err.code ErrorCode.DebateNotCompleted)
  else Except.error Err.constraintHasOne

/-! Concrete sample states used by the concrete theorems below.  They
trace one full run of the program: platform with a 5% fee, a debate
with stake 100, two bets of 1000 on Pro, settlement in favor of Pro. -/

/-- A platform with authority 1, treasury 2 and a 500 bps (5%) fee. -/
def samplePlatform : Platform :=
  { authority := 1
    treasury := 2
    platform_fee_bps := 500
    total_debates := 0
    total_users := 0
    total_volume := 0 }

/-- The sample platform after one debate has been created. -/
def samplePlatform1 : Platform := { samplePlatform with total_debates := 1 }

/-- The debate as created: Pending, stake 100 per side. -/
def pendingDebate : Debate :=
  { topic := "resolved"
    pro_bot := 10
    con_bot := 11
    status := DebateStatus.Pending
    stake_amount := 100
    total_pro_votes := 0
    total_con_votes := 0
    pro_rounds_won := 0
    con_rounds_won := 0
    winner := none
    created_at := 0
    started_at := none
    completed_at := none }

/-- The sample debate once started. -/
def runningDebate : Debate :=
  { pendingDebate with status := DebateStatus.InProgress, started_at := some 1 }

/-- The sample debate once settled in favor of Pro. -/
def doneDebate : Debate :=
  { runningDebate with
    status := DebateStatus.Completed
    winner := some DebatePosition.Pro
    completed_at := some 2 }

/-- A bet of 1000 on Pro by bettor 7, placed while Pending. -/
def proBetA : Bet :=
  { debate := 0
    bettor := 7
    side := DebatePosition.Pro
    amount := 1000
    settled := false
    payout := 0
    created_at := 0 }

/-- A second bet of 1000 on Pro, by bettor 8. -/
def proBetB : Bet := { proBetA with bettor := 8 }

/-- The first Pro bet after its successful claim: payout 1900. -/
def settledBetA : Bet := { proBetA with settled := true, payout := 1900 }

/-- C1: the claim states that an escrow debit that would drive the
escrow balance below zero is rejected as an error with no partial
effect, never clamped and never wrapping.  The code contradicts it: the
escrow debits in `settle_debate` and `claim_bet` are unchecked u64
`-=` with no balance check.  This theorem traces a full reachable run
(create with stake 100 under a 5% fee, two bets of 1000 on Pro, start,
settle in favor of Pro, first winning claim) down to an escrow balance
of 100, and then shows the second winning claim, whose payout 1900
exceeds the remaining 100, still returns success and leaves the escrow
lamports wrapped around to 2^64 - 1800 instead of failing. -/
theorem escrow_debit_wraps :
    create_debate "resolved" 10 11 100 0 samplePlatform 100 100 0
      = Except.ok (pendingDebate, samplePlatform1, 0, 0, 200)
    ∧ place_bet pendingDebate 0 7 DebatePosition.Pro 1000 200 1000 0 0
      = Except.ok (proBetA, 1200, 0, 1000)
    ∧ place_bet pendingDebate 0 8 DebatePosition.Pro 1000 1200 1000 0 0
      = Except.ok (proBetB, 2200, 0, 1000)
    ∧ start_debate 1 samplePlatform1 pendingDebate 1 = Except.ok runningDebate
    ∧ settle_debate 1 samplePlatform1 runningDebate 2200 0 0 DebatePosition.Pro 2
      = Except.ok (doneDebate, 2000, 190, 10)
    ∧ claim_bet 7 samplePlatform1 doneDebate proBetA 2000 0 0
      = Except.ok (settledBetA, 100, 1900, 1900)
    ∧ claim_bet 8 samplePlatform1 doneDebate proBetB 100 0 0
      = Except.ok ({ proBetB with settled := true, payout := 1900 },
          18446744073709549816, 1900, 1900)
    ∧ 100 < 1900 :=
  ⟨rfl, rfl, rfl, rfl, rfl, rfl, rfl, by norm_num⟩

/-- C2: the claim states that `settle_debate` by a caller other than
the platform settlement authority fails with no state change.  The code
contradicts it: the `SettleDebate` accounts struct carries no `has_one
= authority` constraint, so a signer distinct from
`platform.authority` (here 99 versus 1) settles successfully, flips the
debate to Completed, and moves the escrow funds. -/
theorem settle_unauthorized_succeeds :
    settle_debate 99 samplePlatform1 runningDebate 2200 0 0 DebatePosition.Pro 2
      = Except.ok (doneDebate, 2000, 190, 10)
    ∧ (99 : Nat) ≠ samplePlatform1.authority :=
  ⟨rfl, by decide⟩

/-- C3: the claim states that the vote-tally additions in
`submit_round_result` fail on unsigned overflow rather than wrap.  The
code contradicts it: the additions are unchecked u32 `+=`.  Reporting
round 1 with 4294967295 (u32 max) pro votes and then round 2 with one
more pro vote succeeds both times and wraps `total_pro_votes` back to
0. -/
theorem round_votes_wrap :
    submit_round_result 1 samplePlatform1 runningDebate 1 4294967295 0
      = Except.ok { runningDebate with
          total_pro_votes := 4294967295, pro_rounds_won := 1 }
    ∧ submit_round_result 1 samplePlatform1
        { runningDebate with total_pro_votes := 4294967295, pro_rounds_won := 1 }
        2 1 0
      = Except.ok { runningDebate with total_pro_votes := 0, pro_rounds_won := 2 } :=
  ⟨rfl, rfl⟩

/-! Arithmetic helper lemmas shared by the settlement theorems. -/

/-- Dividing `pool * bps` by 10000 with `bps ≤ 10000` stays below the pool. -/
lemma mul_div_le_self (pool bps : Nat) (h : bps ≤ 10000) :
    pool * bps / 10000 ≤ pool := by
  have h1 : pool * bps ≤ pool * 10000 := Nat.mul_le_mul_left pool h
  have h2 : pool * bps / 10000 ≤ pool * 10000 / 10000 := Nat.div_le_div_right h1
  have h3 : pool * 10000 / 10000 = pool := by omega
  exact h2.trans (le_of_eq h3)

/-- Wrapping u64 subtraction agrees with plain subtraction when no
underflow occurs. -/
lemma wrapSub64_eq_sub (a b : Nat) (hb : b ≤ a) (ha : a < U64_MOD) :
    wrapSub64 a b = a - b := by
  unfold wrapSub64 U64_MOD at *
  omega

/-- C4: for every `fee_bps ≤ 1000` and positive stake for which the pool
computation succeeds (`stake_amount * 2` fits in u64), the amounts
computed by `settle_debate` conserve value: `winner_payout +
platform_fee = stake_amount * 2` exactly, and the fee is the exact
floor `stake_amount * 2 * fee_bps / 10000`. -/
theorem settle_conservation (stake_amount fee_bps : Nat)
    (hbps : fee_bps ≤ 1000) (hstake : 0 < stake_amount)
    (hfit : stake_amount * 2 < U64_MOD) :
    winner_payout (total_pool stake_amount)
        (platform_fee (total_pool stake_amount) fee_bps)
      + platform_fee (total_pool stake_amount) fee_bps = stake_amount * 2
    ∧ platform_fee (total_pool stake_amount) fee_bps
      = stake_amount * 2 * fee_bps / 10000 := by
  have hpool : total_pool stake_amount = stake_amount * 2 :=
    Nat.mod_eq_of_lt hfit
  have hle : stake_amount * 2 * fee_bps / 10000 ≤ stake_amount * 2 :=
    mul_div_le_self _ _ (by omega)
  have hfee : platform_fee (total_pool stake_amount) fee_bps
      = stake_amount * 2 * fee_bps / 10000 := by
    unfold platform_fee
    rw [hpool]
    exact Nat.mod_eq_of_lt (lt_of_le_of_lt hle hfit)
  refine ⟨?_, hfee⟩
  unfold winner_payout
  rw [hfee, hpool, wrapSub64_eq_sub _ _ hle hfit]
  omega

/-- Witness for `settle_conservation` at the spec end-to-end example:
stake 1000000 with a 250 bps fee gives payout 1950000 and fee 50000. -/
theorem settle_conservation_witness :
    (winner_payout (total_pool 1000000) (platform_fee (total_pool 1000000) 250)
        + platform_fee (total_pool 1000000) 250 = 1000000 * 2
      ∧ platform_fee (total_pool 1000000) 250 = 1000000 * 2 * 250 / 10000)
    ∧ platform_fee (total_pool 1000000) 250 = 50000
    ∧ winner_payout (total_pool 1000000) (platform_fee (total_pool 1000000) 250)
      = 1950000 :=
  ⟨settle_conservation 1000000 250 (by norm_num) (by norm_num)
    (by unfold U64_MOD; norm_num), rfl, rfl⟩

/-- C10: for every platform accepted by the source `initialize`
instruction (so `platform_fee_bps ≤ 1000`) and every stake whose pool
computation does not overflow, the fee computed by `settle_debate` is
bounded by the pool, and the u64 subtraction `winner_payout = total_pool
- platform_fee` therefore never underflows (the wrapping subtraction
agrees with the plain one). -/
theorem init_fee_bound_no_underflow (a t bps : Nat) (p : Platform)
    (hinit : init_platform a t bps = Except.ok p)
    (stake_amount : Nat) (hfit : stake_amount * 2 < U64_MOD) :
    platform_fee (total_pool stake_amount) p.platform_fee_bps
        ≤ total_pool stake_amount
    ∧ winner_payout (total_pool stake_amount)
          (platform_fee (total_pool stake_amount) p.platform_fee_bps)
        = total_pool stake_amount
          - platform_fee (total_pool stake_amount) p.platform_fee_bps := by
  have hbps : p.platform_fee_bps ≤ 1000 := by
    by_cases h : bps ≤ 1000
    · simp only [init_platform, if_pos h, Except.ok.injEq] at hinit
      rw [← hinit]
      exact h
    · simp only [init_platform, if_neg h] at hinit
      exact Except.noConfusion hinit
  have hle : platform_fee (total_pool stake_amount) p.platform_fee_bps
      ≤ total_pool stake_amount := by
    unfold platform_fee
    exact le_trans (Nat.mod_le _ _) (mul_div_le_self _ _ (by omega))
  have hpool_lt : total_pool stake_amount < U64_MOD := by
    unfold total_pool
    exact Nat.mod_lt _ (by unfold U64_MOD; norm_num)
  exact ⟨hle, wrapSub64_eq_sub _ _ hle hpool_lt⟩

/-- Witness for `init_fee_bound_no_underflow`: a freshly accepted
platform with a 250 bps fee and stake 1000000. -/
theorem init_fee_bound_no_underflow_witness :
    init_platform 1 2 250
      = Except.ok
          { authority := 1, treasury := 2, platform_fee_bps := 250,
            total_debates := 0, total_users := 0, total_volume := 0 }
    ∧ (platform_fee (total_pool 1000000)
          (Platform.platform_fee_bps
            { authority := 1, treasury := 2, platform_fee_bps := 250,
              total_debates := 0, total_users := 0, total_volume := 0 })
        ≤ total_pool 1000000
      ∧ winner_payout (total_pool 1000000)
            (platform_fee (total_pool 1000000)
              (Platform.platform_fee_bps
                { authority := 1, treasury := 2, platform_fee_bps := 250,
                  total_debates := 0, total_users := 0, total_volume := 0 }))
          = total_pool 1000000
            - platform_fee (total_pool 1000000)
                (Platform.platform_fee_bps
                  { authority := 1, treasury := 2, platform_fee_bps := 250,
                    total_debates := 0, total_users := 0, total_volume := 0 })) :=
  ⟨rfl,
    init_fee_bound_no_underflow 1 2 250
      { authority := 1, treasury := 2, platform_fee_bps := 250,
        total_debates := 0, total_users := 0, total_volume := 0 }
      rfl 1000000 (by unfold U64_MOD; norm_num)⟩

/-- C5 (amended): for every winning unsettled bet on a Completed
contest, `claim_bet` sets the payout to `floor(bet.amount * 2 * (10000 -
fee_bps) / 10000)` reduced modulo 2^64, which equals the exact floor
value whenever that value fits in u64 — the stated hypothesis `hfit`.
The u128 multiply itself never overflows; only the final `as u64`
narrowing can truncate. -/
theorem claim_payout_exact (p : Platform) (d : Debate) (b : Bet)
    (escrowBal bettorBal totalWon : Nat) (w : DebatePosition)
    (hst : d.status = DebateStatus.Completed) (hw : d.winner = some w)
    (hside : b.side = w) (hns : b.settled = false)
    (hfit : b.amount * 2 * (10000 - p.platform_fee_bps) / 10000 < U64_MOD) :
    claim_bet b.bettor p d b escrowBal bettorBal totalWon =
      Except.ok
        ({ b with
            settled := true,
            payout := b.amount * 2 * (10000 - p.platform_fee_bps) / 10000 },
          wrapSub64 escrowBal (b.amount * 2 * (10000 - p.platform_fee_bps) / 10000),
          wrapAdd64 bettorBal (b.amount * 2 * (10000 - p.platform_fee_bps) / 10000),
          wrapAdd64 totalWon (b.amount * 2 * (10000 - p.platform_fee_bps) / 10000)) := by
  have hcp : claim_payout b.amount p.platform_fee_bps
      = b.amount * 2 * (10000 - p.platform_fee_bps) / 10000 := by
    unfold claim_payout
    exact Nat.mod_eq_of_lt hfit
  simp [claim_bet, hst, hw, hside, hns, hcp]

/-- The platform with a 250 bps fee used by the claim-payout witness. -/
def fee250Platform : Platform :=
  { samplePlatform with platform_fee_bps := 250 }

/-- A winning bet of 400000 on Pro, not yet settled. -/
def bet400k : Bet :=
  { debate := 0
    bettor := 7
    side := DebatePosition.Pro
    amount := 400000
    settled := false
    payout := 0
    created_at := 0 }

/-- Witness for `claim_payout_exact` at the spec example: a winning bet
of 400000 under a 250 bps fee claims exactly 780000. -/
theorem claim_payout_exact_witness :
    claim_bet bet400k.bettor fee250Platform doneDebate bet400k 2000000 0 0 =
      Except.ok
        ({ bet400k with
            settled := true,
            payout := bet400k.amount * 2 * (10000 - fee250Platform.platform_fee_bps) / 10000 },
          wrapSub64 2000000
            (bet400k.amount * 2 * (10000 - fee250Platform.platform_fee_bps) / 10000),
          wrapAdd64 0
            (bet400k.amount * 2 * (10000 - fee250Platform.platform_fee_bps) / 10000),
          wrapAdd64 0
            (bet400k.amount * 2 * (10000 - fee250Platform.platform_fee_bps) / 10000))
    ∧ bet400k.amount * 2 * (10000 - fee250Platform.platform_fee_bps) / 10000
      = 780000 :=
  ⟨claim_payout_exact fee250Platform doneDebate bet400k 2000000 0 0
      DebatePosition.Pro rfl rfl rfl rfl (by decide),
    by decide⟩

/-- A platform whose fee is 0 bps, accepted by the source bounds. -/
def feeFreePlatform : Platform :=
  { samplePlatform with platform_fee_bps := 0 }

/-- A Pending low-stake debate used to show the huge bet is placeable. -/
def tinyPendingDebate : Debate :=
  { pendingDebate with stake_amount := 1 }

/-- The tiny debate once completed in favor of Pro. -/
def tinyDoneDebate : Debate :=
  { tinyPendingDebate with
    status := DebateStatus.Completed
    winner := some DebatePosition.Pro
    started_at := some 1
    completed_at := some 2 }

/-- A bet of 2^63 on Pro by bettor 7, as `place_bet` records it. -/
def hugeBet : Bet :=
  { debate := 0
    bettor := 7
    side := DebatePosition.Pro
    amount := 9223372036854775808
    settled := false
    payout := 0
    created_at := 0 }

/-- C5 counterexample: the claim as stated says the payout of every
winning bet equals the exact floor value.  A bet of 2^63 is placeable
(first conjunct: `place_bet` accepts it while the contest is Pending),
yet under a 0 bps fee the exact floor value is 2^64, and the `as u64`
narrowing cast in the source truncates it, so `claim_bet` records a
payout of 0 instead — the winning bettor is paid nothing. -/
theorem claim_payout_truncates :
    place_bet tinyPendingDebate 0 7 DebatePosition.Pro 9223372036854775808 2
        9223372036854775808 0 0
      = Except.ok (hugeBet, 9223372036854775810, 0, 9223372036854775808)
    ∧ claim_bet 7 feeFreePlatform tinyDoneDebate hugeBet 18446744073709551615 0 0
      = Except.ok ({ hugeBet with settled := true, payout := 0 },
          18446744073709551615, 0, 0)
    ∧ hugeBet.amount * 2 * (10000 - feeFreePlatform.platform_fee_bps) / 10000
      = 18446744073709551616
    ∧ (0 : Nat) ≠ 18446744073709551616 :=
  ⟨rfl, rfl, by decide, by decide⟩

/-- C6: once a `settle_debate` call has succeeded, the resulting debate
is Completed, so any second `settle_debate` invocation on it — by any
caller, with any platform, balances, winner or timestamp — returns the
`InvalidDebateStatus` state error.  An error return models the
transactional abort of the host runtime: no escrow debit, no payout,
and no change to the winner or `completed_at` fields. -/
theorem settle_twice_fails (caller₁ caller₂ : Nat) (p₁ p₂ : Platform)
    (d d' : Debate) (e₁ w₁ t₁ e₂ w₂ t₂ : Nat) (pos₁ pos₂ : DebatePosition)
    (now₁ now₂ : Int) (r : Nat × Nat × Nat)
    (h : settle_debate caller₁ p₁ d e₁ w₁ t₁ pos₁ now₁ = Except.ok (d', r)) :
    settle_debate caller₂ p₂ d' e₂ w₂ t₂ pos₂ now₂
      = Except.error (Err.code ErrorCode.InvalidDebateStatus) := by
  have hst : d'.status = DebateStatus.Completed := by
    unfold settle_debate at h
    split at h
    · simp only [Except.ok.injEq, Prod.mk.injEq] at h
      rw [← h.1]
    · exact Except.noConfusion h
  unfold settle_debate
  rw [hst]
  simp

/-- Witness for `settle_twice_fails`: re-settling the sample Completed
debate fails with the state error. -/
theorem settle_twice_fails_witness :
    settle_debate 1 samplePlatform1 doneDebate 2000 0 0 DebatePosition.Con 9
      = Except.error (Err.code ErrorCode.InvalidDebateStatus) :=
  settle_twice_fails 1 1 samplePlatform1 samplePlatform1 runningDebate doneDebate
    2200 0 0 2000 0 0 DebatePosition.Pro DebatePosition.Con 2 9 (2000, 190, 10) rfl

/-- C7: once a `claim_bet` call has succeeded, the resulting bet record
has `settled = true`, and any second `claim_bet` invocation on it by its
bettor — with any escrow and bettor balances — returns the
`BetAlreadySettled` error.  An error return models the transactional
abort of the host runtime, so the second invocation performs no escrow
transfer and leaves the payout at the value the first claim set; and
since `claim_bet` is the only operation that mutates an existing bet and
every success sets `settled := true`, the flag never returns to
false. -/
theorem claim_twice_fails (caller : Nat) (p : Platform) (d : Debate) (b b' : Bet)
    (e₁ bal₁ won₁ : Nat) (r : Nat × Nat × Nat)
    (h : claim_bet caller p d b e₁ bal₁ won₁ = Except.ok (b', r)) :
    b'.settled = true
    ∧ ∀ e₂ bal₂ won₂, claim_bet b'.bettor p d b' e₂ bal₂ won₂
        = Except.error (Err.code ErrorCode.BetAlreadySettled) := by
  unfold claim_bet at h
  split at h
  · split at h
    · rename_i hst
      split at h
      · exact Except.noConfusion h
      · split at h
        · exact Except.noConfusion h
        · rename_i w hw
          split at h
          · simp only [Except.ok.injEq, Prod.mk.injEq] at h
            obtain ⟨hb', -⟩ := h
            subst hb'
            refine ⟨rfl, fun e₂ bal₂ won₂ => ?_⟩
            simp [claim_bet, hst]
          · simp only [Except.ok.injEq, Prod.mk.injEq] at h
            obtain ⟨hb', -⟩ := h
            subst hb'
            refine ⟨rfl, fun e₂ bal₂ won₂ => ?_⟩
            simp [claim_bet, hst]
    · exact Except.noConfusion h
  · exact Except.noConfusion h

/-- Witness for `claim_twice_fails`: re-claiming the settled sample bet
fails with the `BetAlreadySettled` error. -/
theorem claim_twice_fails_witness :
    settledBetA.settled = true
    ∧ claim_bet settledBetA.bettor samplePlatform1 doneDebate settledBetA 55 66 77
      = Except.error (Err.code ErrorCode.BetAlreadySettled) := by
  have h := claim_twice_fails 7 samplePlatform1 doneDebate proBetA settledBetA
    2000 0 0 (100, 1900, 1900) rfl
  exact ⟨h.1, h.2 55 66 77⟩

/-- C9 (amended): for every contest whose status is not Pending,
`place_bet` never succeeds — so no bet is recorded and no funds move
into escrow — and whenever the requested amount is positive the error
is the betting-closed one.  (An amount of 0 trips the earlier
`amount > 0` validation and surfaces `InvalidBetAmount` instead; see
the counterexample to the unqualified original claim.) -/
theorem place_bet_rejected_when_not_pending (d : Debate) (debateKey bettor : Nat)
    (side : DebatePosition) (amount escrowBal bettorBal totalWagered : Nat)
    (now : Int) (hd : d.status ≠ DebateStatus.Pending) :
    (∀ r, place_bet d debateKey bettor side amount escrowBal bettorBal
        totalWagered now ≠ Except.ok r)
    ∧ (0 < amount →
        place_bet d debateKey bettor side amount escrowBal bettorBal totalWagered now
          = Except.error (Err.code ErrorCode.BettingClosed)) := by
  constructor
  · intro r hr
    unfold place_bet at hr
    by_cases ha : 0 < amount
    · rw [if_pos ha, if_neg hd] at hr
      exact Except.noConfusion hr
    · rw [if_neg ha] at hr
      exact Except.noConfusion hr
  · intro ha
    unfold place_bet
    rw [if_pos ha, if_neg hd]

/-- Witness for `place_bet_rejected_when_not_pending`: betting 5 on the
Completed sample debate fails with the betting-closed error. -/
theorem place_bet_rejected_witness :
    place_bet doneDebate 0 9 DebatePosition.Con 5 99 99 0 3
      = Except.error (Err.code ErrorCode.BettingClosed) :=
  (place_bet_rejected_when_not_pending doneDebate 0 9 DebatePosition.Con 5 99 99 0 3
    (by decide)).2 (by decide)

/-- C9 counterexample: the original claim says every `place_bet` call
on a non-Pending contest fails with a betting-closed error, but the
source checks `amount > 0` first, so a zero-amount bet on the Completed
sample debate fails with `InvalidBetAmount` instead.  The call still
fails and records nothing, which is why the amendment only reorders the
error cases. -/
theorem place_bet_zero_amount_error :
    place_bet doneDebate 0 9 DebatePosition.Con 0 99 99 0 3
      = Except.error (Err.code ErrorCode.InvalidBetAmount)
    ∧ Err.code ErrorCode.InvalidBetAmount ≠ Err.code ErrorCode.BettingClosed
    ∧ doneDebate.status ≠ DebateStatus.Pending :=
  ⟨rfl, by decide, by decide⟩

/-! The debate-record state machine.  Of the program operations, only
`create_debate`, `start_debate`, `submit_round_result` and
`settle_debate` touch the `Debate` account: `place_bet` and `claim_bet`
borrow it immutably in the source (no `mut` on the `debate` account in
their accounts structs), so they cannot change it and contribute no
transition. -/

/-- Debate records producible by the program: a fresh record from a
successful `create_debate`, or the successful image of a reachable
record under `start_debate`, `submit_round_result` or
`settle_debate`. -/
inductive ReachableDebate : Debate → Prop where
  | created (topic : String) (proBot conBot stake_amount : Nat) (now : Int)
      (platform : Platform) (pb cb eb : Nat) (d : Debate)
      (rest : Platform × Nat × Nat × Nat)
      (h : create_debate topic proBot conBot stake_amount now platform pb cb eb
            = Except.ok (d, rest)) :
      ReachableDebate d
  | started (d : Debate) (hd : ReachableDebate d) (caller : Nat)
      (platform : Platform) (now : Int) (d' : Debate)
      (h : start_debate caller platform d now = Except.ok d') :
      ReachableDebate d'
  | reported (d : Debate) (hd : ReachableDebate d) (caller : Nat)
      (platform : Platform) (round pro_votes con_votes : Nat) (d' : Debate)
      (h : submit_round_result caller platform d round pro_votes con_votes
            = Except.ok d') :
      ReachableDebate d'
  | settledStep (d : Debate) (hd : ReachableDebate d) (caller : Nat)
      (platform : Platform) (eb wb tb : Nat) (pos : DebatePosition) (now : Int)
      (d' : Debate) (rest : Nat × Nat × Nat)
      (h : settle_debate caller platform d eb wb tb pos now
            = Except.ok (d', rest)) :
      ReachableDebate d'

/-- A successful `create_debate` yields a Pending record with no winner. -/
lemma create_debate_ok_shape (topic : String) (proBot conBot stake_amount : Nat)
    (now : Int) (platform : Platform) (pb cb eb : Nat) (d : Debate)
    (rest : Platform × Nat × Nat × Nat)
    (h : create_debate topic proBot conBot stake_amount now platform pb cb eb
          = Except.ok (d, rest)) :
    d.status = DebateStatus.Pending ∧ d.winner = none := by
  unfold create_debate at h
  split at h
  · split at h
    · exact Except.noConfusion h
    · split at h
      · exact Except.noConfusion h
      · simp only [Except.ok.injEq, Prod.mk.injEq] at h
        obtain ⟨hd, -⟩ := h
        rw [← hd]
        exact ⟨rfl, rfl⟩
  · exact Except.noConfusion h

/-- A successful `start_debate` starts from Pending, moves to
InProgress, and leaves the winner untouched. -/
lemma start_debate_ok_shape (caller : Nat) (platform : Platform) (d : Debate)
    (now : Int) (d' : Debate)
    (h : start_debate caller platform d now = Except.ok d') :
    d'.status = DebateStatus.InProgress ∧ d'.winner = d.winner
    ∧ d.status = DebateStatus.Pending := by
  unfold start_debate at h
  split at h
  · split at h
    · rename_i hpend
      simp only [Except.ok.injEq] at h
      rw [← h]
      exact ⟨rfl, rfl, hpend⟩
    · exact Except.noConfusion h
  · exact Except.noConfusion h

/-- A successful `submit_round_result` changes neither the status nor
the winner. -/
lemma submit_round_ok_shape (caller : Nat) (platform : Platform) (d : Debate)
    (round pro_votes con_votes : Nat) (d' : Debate)
    (h : submit_round_result caller platform d round pro_votes con_votes
          = Except.ok d') :
    d'.status = d.status ∧ d'.winner = d.winner := by
  unfold submit_round_result at h
  split at h
  · split at h
    · split at h
      · simp only [Except.ok.injEq] at h
        rw [← h]
        exact ⟨rfl, rfl⟩
      · exact Except.noConfusion h
    · exact Except.noConfusion h
  · exact Except.noConfusion h

/-- A successful `settle_debate` yields a Completed record with the
winner set. -/
lemma settle_debate_ok_shape (caller : Nat) (platform : Platform) (d : Debate)
    (eb wb tb : Nat) (pos : DebatePosition) (now : Int) (d' : Debate)
    (rest : Nat × Nat × Nat)
    (h : settle_debate caller platform d eb wb tb pos now = Except.ok (d', rest)) :
    d'.status = DebateStatus.Completed ∧ d'.winner = some pos := by
  unfold settle_debate at h
  split at h
  · simp only [Except.ok.injEq, Prod.mk.injEq] at h
    obtain ⟨hd, -⟩ := h
    rw [← hd]
    exact ⟨rfl, rfl⟩
  · exact Except.noConfusion h

/-- C8: in every debate record reachable through the program
operations, the winner field is set if and only if the status is
Completed. -/
theorem winner_iff_completed (d : Debate) (hd : ReachableDebate d) :
    d.winner.isSome = true ↔ d.status = DebateStatus.Completed := by
  induction hd with
  | created topic proBot conBot stake_amount now platform pb cb eb d rest h =>
    obtain ⟨h1, h2⟩ := create_debate_ok_shape _ _ _ _ _ _ _ _ _ _ _ h
    rw [h1, h2]
    simp
  | started d hd caller platform now d' h ih =>
    obtain ⟨h1, h2, h3⟩ := start_debate_ok_shape _ _ _ _ _ h
    have hns : d.winner.isSome = false := by
      cases hv : d.winner.isSome
      · rfl
      · exact absurd (ih.mp hv) (by rw [h3]; decide)
    rw [h1, h2, hns]
    simp
  | reported d hd caller platform round pro_votes con_votes d' h ih =>
    obtain ⟨h1, h2⟩ := submit_round_ok_shape _ _ _ _ _ _ _ h
    rw [h1, h2]
    exact ih
  | settledStep d hd caller platform eb wb tb pos now d' rest h ih =>
    obtain ⟨h1, h2⟩ := settle_debate_ok_shape _ _ _ _ _ _ _ _ _ _ h
    rw [h1, h2]
    simp

/-- Witness for `winner_iff_completed` at a concrete reachable state:
the freshly created sample debate (winner absent, status Pending). -/
theorem winner_iff_completed_witness :
    pendingDebate.winner.isSome = true
      ↔ pendingDebate.status = DebateStatus.Completed :=
  winner_iff_completed pendingDebate
    (ReachableDebate.created "resolved" 10 11 100 0 samplePlatform 100 100 0
      pendingDebate (samplePlatform1, 0, 0, 200) rfl)

end AiDebates
